import Mathlib

/-!
Shallow embedding of the NERV Construction Space Engine
(`app/services/rust_bridge.py` and the construction / collection endpoints in
`app/api/v1/endpoints/`), together with theorems settling the frozen claims
about the engine's behaviour.

Conventions of the embedding:
* Python dicts with string keys become insertion-ordered association lists.
* `rust_binary_path` being `None` (fallback mode) is modelled by `Mode :=
  Option Engine`; the external Rust process, which is not among the embedded
  sources, is an arbitrary `Engine` parameter whose fields give the parsed
  response (or raised-error message) of one `_execute_rust_command` call.
* A raised `GeometryEngineError` / `ConstructionValidationError` becomes the
  `Except.error` constructor carrying the message string.
* Because the Python fallback branches mutate their `construction_space`
  argument in place (dict item assignment), every bridge operation returns,
  next to its `(created, space)` result, the object the caller's argument
  denotes after the call.
-/

namespace Nerv

/-- Coordinates are Python floats in the source; the embedded code only
stores and forwards them and never computes with them, so they are embedded
as integers (any type with decidable equality would do). -/
abbrev Coord := Int

/-- Geometric point representation (`rust_bridge.Point`). -/
structure Point where
  id : String
  x : Coord
  y : Coord
  label : Option String := none
  is_constructed : Bool := false
  dependencies : List String := []
deriving DecidableEq

/-- Geometric line representation (`rust_bridge.Line`). -/
structure Line where
  id : String
  point1_id : String
  point2_id : String
  label : Option String := none
  dependencies : List String := []
deriving DecidableEq

/-- Geometric circle representation (`rust_bridge.Circle`). -/
structure Circle where
  id : String
  center_id : String
  radius_point_id : String
  label : Option String := none
  dependencies : List String := []
deriving DecidableEq

/-- A Python dict with string keys, embedded as an insertion-ordered
association list (CPython dicts preserve insertion order). -/
abbrev Dict (α : Type) := List (String × α)

/-- Key membership test, Python `k in d`. -/
def dhas {α : Type} (m : Dict α) (k : String) : Bool :=
  m.any (fun p => p.1 == k)

/-- Dict item assignment `d[k] = v`: overwrites the entry in place when the
key exists, otherwise appends a new entry at the end. -/
def dinsert {α : Type} (m : Dict α) (k : String) (v : α) : Dict α :=
  if dhas m k then m.map (fun p => if p.1 == k then (k, v) else p)
  else m ++ [(k, v)]

/-- History entries are free-form dicts that the embedded code never builds
and never reads field by field (only `len(history)` is consulted), so they
are embedded opaquely. -/
abbrev HistoryEntry := String

/-- Complete construction space state (`rust_bridge.ConstructionSpace`). -/
structure ConstructionSpace where
  points : Dict Point := []
  lines : Dict Line := []
  circles : Dict Circle := []
  history : List HistoryEntry := []
deriving DecidableEq

/-- The metadata bag of a step; the embedded code reads only the keys
`x`, `y` and `label` (each with a default when absent). -/
structure Metadata where
  x : Option Coord := none
  y : Option Coord := none
  label : Option String := none
deriving DecidableEq

/-- The dict the construction endpoints pass to
`RustGeometryService.validate_construction`: the `step_type`,
`dependencies` and `metadata` fields of a step. -/
structure StepData where
  step_type : String
  dependencies : List String := []
  metadata : Metadata := {}
deriving DecidableEq

/-- A single construction step (`construction.ConstructionStep`). -/
structure ConstructionStep where
  step_number : Int
  step_type : String
  description : String := ""
  dependencies : List String := []
  created_objects : List String := []
  metadata : Metadata := {}
deriving DecidableEq

/-- The projection the endpoints apply before calling the bridge validator. -/
def ConstructionStep.data (st : ConstructionStep) : StepData :=
  { step_type := st.step_type, dependencies := st.dependencies,
    metadata := st.metadata }

/-- Behaviour of the external Rust geometry process, which is not among the
embedded sources. Each field is the parsed outcome of one
`_execute_rust_command` round trip for that command: either the decoded
response payload or the message of the raised `GeometryEngineError`
(process failure, empty output, unparseable JSON, missing field). -/
structure Engine where
  addPointCmd : ConstructionSpace → Coord → Coord → Option String →
    Except String (String × ConstructionSpace)
  constructLineCmd : ConstructionSpace → String → String → Option String →
    Except String (String × ConstructionSpace)
  constructCircleCmd : ConstructionSpace → String → String → Option String →
    Except String (String × ConstructionSpace)
  findIntersectionsCmd : ConstructionSpace → String → String →
    Except String (List Point × ConstructionSpace)
  validateCmd : ConstructionSpace → StepData → Except String Bool
  healthCmd : Except String (Option String)

/-- The service's `rust_binary_path`: `none` is fallback mode (binary not
found), `some e` is delegated mode talking to engine `e`. -/
abbrev Mode := Option Engine

/-- Embeds `RustGeometryService.health_check`: fallback mode reports basic
health `True`; delegated mode sends a `health_check` command and compares
the optional `status` field of the response with the string `healthy`,
reporting `False` when the call raises. -/
def health_check (mode : Mode) : Bool :=
  match mode with
  | none => true
  | some e =>
    match e.healthCmd with
    | Except.ok (some s) => s == "healthy"
    | Except.ok none => false
    | Except.error _ => false

/-- Embeds `RustGeometryService.add_point`. First component: the
`(point_id, space)` result or the raised error message. Second component:
the object the caller's space argument denotes after the call — the
fallback branch executes `construction_space.points[point_id] = point`,
mutating the argument in place, while the delegated branch only serializes
it. `newId` stands for the `str(uuid.uuid4())` drawn in the fallback
branch. -/
def add_point (mode : Mode) (s : ConstructionSpace) (x y : Coord)
    (label : Option String) (newId : String) :
    Except String (String × ConstructionSpace) × ConstructionSpace :=
  match mode with
  | none =>
    let pt : Point := { id := newId, x := x, y := y, label := label }
    let s2 := { s with points := dinsert s.points newId pt }
    (Except.ok (newId, s2), s2)
  | some e =>
    match e.addPointCmd s x y label with
    | Except.ok (pid, sp) => (Except.ok (pid, sp), s)
    | Except.error msg => (Except.error ("Failed to add point: " ++ msg), s)

/-- Embeds `RustGeometryService.construct_line`: the two referential checks
and the distinctness check run before either branch; the fallback branch
mutates the argument (`construction_space.lines[line_id] = line`), the
delegated branch leaves it untouched. -/
def construct_line (mode : Mode) (s : ConstructionSpace)
    (point1_id point2_id : String) (label : Option String) (newId : String) :
    Except String (String × ConstructionSpace) × ConstructionSpace :=
  if !(dhas s.points point1_id) then
    (Except.error ("Point not found: " ++ point1_id), s)
  else if !(dhas s.points point2_id) then
    (Except.error ("Point not found: " ++ point2_id), s)
  else if point1_id == point2_id then
    (Except.error "Cannot create line with identical points", s)
  else
    match mode with
    | none =>
      let line : Line :=
        ⟨newId, point1_id, point2_id, label, [point1_id, point2_id]⟩
      let s2 := { s with lines := dinsert s.lines newId line }
      (Except.ok (newId, s2), s2)
    | some e =>
      match e.constructLineCmd s point1_id point2_id label with
      | Except.ok (lid, sp) => (Except.ok (lid, sp), s)
      | Except.error msg =>
        (Except.error ("Failed to construct line: " ++ msg), s)

/-- Embeds `RustGeometryService.construct_circle`; same shape as
`construct_line` with the center/radius-point checks. -/
def construct_circle (mode : Mode) (s : ConstructionSpace)
    (center_id radius_point_id : String) (label : Option String)
    (newId : String) :
    Except String (String × ConstructionSpace) × ConstructionSpace :=
  if !(dhas s.points center_id) then
    (Except.error ("Point not found: " ++ center_id), s)
  else if !(dhas s.points radius_point_id) then
    (Except.error ("Point not found: " ++ radius_point_id), s)
  else if center_id == radius_point_id then
    (Except.error "Center and radius point cannot be the same", s)
  else
    match mode with
    | none =>
      let c : Circle :=
        ⟨newId, center_id, radius_point_id, label, [center_id, radius_point_id]⟩
      let s2 := { s with circles := dinsert s.circles newId c }
      (Except.ok (newId, s2), s2)
    | some e =>
      match e.constructCircleCmd s center_id radius_point_id label with
      | Except.ok (cid, sp) => (Except.ok (cid, sp), s)
      | Except.error msg =>
        (Except.error ("Failed to construct circle: " ++ msg), s)

/-- Embeds `RustGeometryService.find_intersections`: the fallback branch
returns an empty intersection list and the argument space itself,
unmodified; the delegated branch returns the parsed response. -/
def find_intersections (mode : Mode) (s : ConstructionSpace)
    (obj1_id obj2_id : String) :
    Except String (List Point × ConstructionSpace) × ConstructionSpace :=
  match mode with
  | none => (Except.ok ([], s), s)
  | some e =>
    match e.findIntersectionsCmd s obj1_id obj2_id with
    | Except.ok (pts, sp) => (Except.ok (pts, sp), s)
    | Except.error msg =>
      (Except.error ("Failed to find intersections: " ++ msg), s)

/-- Embeds `RustGeometryService.validate_construction`. The fallback branch
accepts `add_point` outright, checks only that every dependency of a
`construct_line` / `construct_circle` step is a key of the points dict, and
accepts every other step type; the delegated branch returns the engine's
`is_valid` field. No branch touches the space. -/
def validate_construction (mode : Mode) (s : ConstructionSpace)
    (step : StepData) : Except String Bool :=
  match mode with
  | none =>
    if step.step_type == "add_point" then Except.ok true
    else if step.step_type == "construct_line"
        || step.step_type == "construct_circle" then
      Except.ok (step.dependencies.all (fun dep => dhas s.points dep))
    else Except.ok true
  | some e =>
    match e.validateCmd s step with
    | Except.ok b => Except.ok b
    | Except.error msg =>
      Except.error ("Failed to validate construction: " ++ msg)

/-- Embeds `construction._get_validation_suggestions`: one message per
dependency that is a key of none of the three dicts, then a step-type
specific arity or distinctness message for `construct_line` and
`construct_circle` (no other step type contributes one). -/
def get_validation_suggestions (st : ConstructionStep)
    (s : ConstructionSpace) : List String :=
  let missing := (st.dependencies.filter (fun d =>
    !(dhas s.points d) && !(dhas s.lines d) && !(dhas s.circles d))).map
    (fun d => "Required object \x27" ++ d ++
      "\x27 does not exist in construction space")
  if st.step_type == "construct_line" then
    match st.dependencies with
    | [a, b] =>
      if a == b then missing ++ ["Cannot construct line with identical points"]
      else missing
    | _ => missing ++ ["Line construction requires exactly 2 point dependencies"]
  else if st.step_type == "construct_circle" then
    match st.dependencies with
    | [a, b] =>
      if a == b then missing ++ ["Center and radius point cannot be the same"]
      else missing
    | _ => missing ++
        ["Circle construction requires exactly 2 point dependencies (center and radius point)"]
  else missing

/-- Embeds the `validate-step` endpoint
(`construction.validate_construction_step`): it forwards the step's data to
the bridge validator and pairs the verdict with the suggestion list, which
is computed only when the verdict is invalid; a raised bridge error becomes
the endpoint's failure response. -/
def validate_construction_step (mode : Mode) (s : ConstructionSpace)
    (st : ConstructionStep) : Except String (Bool × List String) :=
  match validate_construction mode s st.data with
  | Except.error msg => Except.error ("Validation failed: " ++ msg)
  | Except.ok b =>
    Except.ok (b, if b then [] else get_validation_suggestions st s)

/-- One per-step record of the `validate-sequence` endpoint's
`validation_results` list (`step` echo omitted; `suggestions` is the empty
list when the key is absent, i.e. for valid steps). -/
structure StepValidation where
  step_number : Nat
  is_valid : Bool
  suggestions : List String := []
deriving DecidableEq

/-- The loop body of `construction.validate_construction_sequence`:
`current_space` is a deep copy of the initial space and is never reassigned
(the step-execution update is an unimplemented TODO in the source), so
every step is validated against the initial snapshot; recording stops right
after the first invalid step; a raised bridge error aborts the whole
endpoint. `idx` is the 0-based position of the first element of `steps` in
the full sequence. -/
def validate_sequence_go (mode : Mode) (s : ConstructionSpace) :
    List ConstructionStep → Nat → Except String (List StepValidation)
  | [], _ => Except.ok []
  | st :: rest, idx =>
    match validate_construction mode s st.data with
    | Except.error msg =>
      Except.error ("Sequence validation failed: " ++ msg)
    | Except.ok b =>
      let r : StepValidation :=
        ⟨idx + 1, b, if b then [] else get_validation_suggestions st s⟩
      if b then
        match validate_sequence_go mode s rest (idx + 1) with
        | Except.error msg => Except.error msg
        | Except.ok rs => Except.ok (r :: rs)
      else Except.ok [r]

/-- The response of the `validate-sequence` endpoint. -/
structure SequenceValidationReport where
  overall_valid : Bool
  validation_results : List StepValidation
  total_steps : Nat
  valid_steps : Nat
  invalid_steps : Nat
deriving DecidableEq

/-- Embeds the `validate-sequence` endpoint
(`construction.validate_construction_sequence`). -/
def validate_construction_sequence (mode : Mode)
    (steps : List ConstructionStep) (initial : ConstructionSpace) :
    Except String SequenceValidationReport :=
  match validate_sequence_go mode initial steps 0 with
  | Except.error msg => Except.error msg
  | Except.ok rs =>
    Except.ok
      { overall_valid := rs.all (fun r => r.is_valid)
        validation_results := rs
        total_steps := steps.length
        valid_steps := (rs.filter (fun r => r.is_valid)).length
        invalid_steps := (rs.filter (fun r => !r.is_valid)).length }

/-- The dict `construction._execute_construction_step` returns: the created
identifier(s) or intersection list, plus the updated space every variant
carries. -/
inductive StepResult where
  | point : String → ConstructionSpace → StepResult
  | line : String → ConstructionSpace → StepResult
  | circle : String → ConstructionSpace → StepResult
  | inters : List Point → ConstructionSpace → StepResult
deriving DecidableEq

/-- The `updated_space` field, present in every result variant. -/
def StepResult.updatedSpace : StepResult → ConstructionSpace
  | .point _ sp => sp
  | .line _ sp => sp
  | .circle _ sp => sp
  | .inters _ sp => sp

/-- The `created_id` field (absent for the intersections variant). -/
def StepResult.createdId : StepResult → Option String
  | .point pid _ => some pid
  | .line lid _ => some lid
  | .circle cid _ => some cid
  | .inters _ _ => none

/-- Embeds `construction._execute_construction_step`: dispatch on the step
type, arity checks raising `ConstructionValidationError` for the two-object
steps, coordinates and label read from the metadata bag with defaults.
`newId` stands for the uuid drawn by the bridge operation's fallback
branch. -/
def execute_step (mode : Mode) (st : ConstructionStep)
    (s : ConstructionSpace) (newId : String) : Except String StepResult :=
  if st.step_type == "add_point" then
    match (add_point mode s ((st.metadata.x).getD 0) ((st.metadata.y).getD 0)
        st.metadata.label newId).1 with
    | Except.ok (pid, sp) => Except.ok (StepResult.point pid sp)
    | Except.error msg => Except.error msg
  else if st.step_type == "construct_line" then
    match st.dependencies with
    | [d1, d2] =>
      match (construct_line mode s d1 d2 st.metadata.label newId).1 with
      | Except.ok (lid, sp) => Except.ok (StepResult.line lid sp)
      | Except.error msg => Except.error msg
    | _ => Except.error "Line requires exactly 2 points"
  else if st.step_type == "construct_circle" then
    match st.dependencies with
    | [d1, d2] =>
      match (construct_circle mode s d1 d2 st.metadata.label newId).1 with
      | Except.ok (cid, sp) => Except.ok (StepResult.circle cid sp)
      | Except.error msg => Except.error msg
    | _ => Except.error "Circle requires exactly 2 points"
  else if st.step_type == "find_intersections" then
    match st.dependencies with
    | [d1, d2] =>
      match (find_intersections mode s d1 d2).1 with
      | Except.ok (pts, sp) => Except.ok (StepResult.inters pts sp)
      | Except.error msg => Except.error msg
    | _ => Except.error "Intersection requires exactly 2 geometric objects"
  else Except.error ("Unknown step type: " ++ st.step_type)

/-- One entry of the `execute-sequence` endpoint's `execution_results`
list (`step` echo and the formatted message omitted). -/
structure ExecEntry where
  step_number : Nat
  success : Bool
  result : Option StepResult := none
  error : Option String := none
deriving DecidableEq

/-- The loop of `construction.execute_construction_sequence`: each step is
executed against the current space, a success entry is recorded and the
current space becomes the result's `updated_space`; the first raised error
is recorded as a failure entry and stops the loop, leaving the space as of
the last successful step. `fresh i` stands for the uuid drawn while
executing the step at 0-based position `i`. -/
def exec_go (mode : Mode) (fresh : Nat → String) :
    List ConstructionStep → ConstructionSpace → Nat →
    List ExecEntry × ConstructionSpace
  | [], s, _ => ([], s)
  | st :: rest, s, i =>
    match execute_step mode st s (fresh i) with
    | Except.error msg => ([⟨i + 1, false, none, some msg⟩], s)
    | Except.ok r =>
      let p := exec_go mode fresh rest r.updatedSpace (i + 1)
      (⟨i + 1, true, some r, none⟩ :: p.1, p.2)

/-- The response of the `execute-sequence` endpoint. -/
structure ExecutionReport where
  final_construction_space : ConstructionSpace
  execution_results : List ExecEntry
  total_steps : Nat
  successful_steps : Nat
  overall_success : Bool
deriving DecidableEq

/-- Embeds the `execute-sequence` endpoint
(`construction.execute_construction_sequence`). The loop starts from
`initial.copy(deep=True)`, a by-value copy, so the in-place mutations the
fallback operations perform hit only that copy, never the caller's
object. -/
def execute_construction_sequence (mode : Mode) (fresh : Nat → String)
    (steps : List ConstructionStep) (initial : ConstructionSpace) :
    ExecutionReport :=
  let p := exec_go mode fresh steps initial 0
  { final_construction_space := p.2
    execution_results := p.1
    total_steps := steps.length
    successful_steps := (p.1.filter (fun r => r.success)).length
    overall_success := (p.1.filter (fun r => r.success)).length == steps.length }

/-- Embeds the pattern-recognition part of `collection._analyze_construction`:
the `identified_patterns` list, built from the aggregate counts of the
space in the source's order of appends. -/
def analyze_identified_patterns (s : ConstructionSpace) : List String :=
  let lc := s.lines.length
  let cc := s.circles.length
  let pc := s.points.length
  (if lc = 3 ∧ 2 ≤ cc ∧ 3 ≤ pc then ["equilateral_triangle"] else []) ++
  (if 2 ≤ lc ∧ 2 ≤ cc then ["perpendicular_bisector"] else []) ++
  (if 1 ≤ cc then ["circle"] else []) ++
  (if 1 ≤ lc then ["line_segment"] else [])

/-- Embeds `collection._can_unlock_element`, with the element passed as its
`id` and `unlock_requirements` fields (the only ones the function reads). -/
def can_unlock_element (elemId : String) (unlock_requirements : List String)
    (s : ConstructionSpace) : Bool :=
  if unlock_requirements.isEmpty then true
  else if elemId == "line_segment" then 0 < s.lines.length
  else if elemId == "circle" then 0 < s.circles.length
  else if elemId == "equilateral_triangle" then
    3 ≤ s.lines.length && 2 ≤ s.circles.length
  else if elemId == "perpendicular_bisector" then
    2 ≤ s.lines.length && 2 ≤ s.circles.length
  else false

/-- Bool test for the error constructor (a raised `GeometryEngineError`). -/
def isErr {α : Type} : Except String α → Bool
  | Except.error _ => true
  | Except.ok _ => false

/-- A delegated engine every one of whose calls fails (for instance the
configured binary exists but exits nonzero on every request). -/
def failEngine : Engine :=
  { addPointCmd := fun _ _ _ _ => Except.error "engine unavailable"
    constructLineCmd := fun _ _ _ _ => Except.error "engine unavailable"
    constructCircleCmd := fun _ _ _ _ => Except.error "engine unavailable"
    findIntersectionsCmd := fun _ _ _ => Except.error "engine unavailable"
    validateCmd := fun _ _ => Except.error "engine unavailable"
    healthCmd := Except.error "engine unavailable" }

/-- A delegated engine that answers the health check with status healthy. -/
def healthyEngine : Engine :=
  { failEngine with healthCmd := Except.ok (some "healthy") }

/-- Concrete fixtures used by witnesses and counterexamples. -/
def emptySpace : ConstructionSpace := {}

def ptA : Point := { id := "A", x := 0, y := 0 }

def ptB : Point := { id := "B", x := 100, y := 0 }

def ptC : Point := { id := "C", x := 0, y := 100 }

def spaceA : ConstructionSpace := { points := [("A", ptA)] }

def spaceAB : ConstructionSpace := { points := [("A", ptA), ("B", ptB)] }

def lineAB : Line := ⟨"L1", "A", "B", none, ["A", "B"]⟩

def spaceABL : ConstructionSpace := { spaceAB with lines := [("L1", lineAB)] }

/-- A space with 3 points, 4 lines and 2 circles. -/
def space4L : ConstructionSpace :=
  { points := [("A", ptA), ("B", ptB), ("C", ptC)]
    lines :=
      [("l1", ⟨"l1", "A", "B", none, ["A", "B"]⟩),
       ("l2", ⟨"l2", "B", "C", none, ["B", "C"]⟩),
       ("l3", ⟨"l3", "C", "A", none, ["C", "A"]⟩),
       ("l4", ⟨"l4", "A", "C", none, ["A", "C"]⟩)]
    circles :=
      [("c1", ⟨"c1", "A", "B", none, ["A", "B"]⟩),
       ("c2", ⟨"c2", "B", "A", none, ["B", "A"]⟩)] }

/-- Appending one entry with a fresh key is what dict assignment does. -/
lemma dinsert_of_fresh {α : Type} (m : Dict α) (k : String) (v : α)
    (h : dhas m k = false) : dinsert m k v = m ++ [(k, v)] := by
  simp [dinsert, h]

lemma dhas_append {α : Type} (m1 m2 : Dict α) (x : String) :
    dhas (m1 ++ m2) x = (dhas m1 x || dhas m2 x) := by
  simp [dhas, List.any_append]

lemma dhas_single {α : Type} (k : String) (v : α) (x : String) :
    dhas [(k, v)] x = (k == x) := by
  simp [dhas]

/-- Characterization of fallback `construct_line` when the checks pass. -/
lemma construct_line_fallback_eq (s : ConstructionSpace) (d1 d2 : String)
    (lbl : Option String) (nid : String)
    (h1 : dhas s.points d1 = true) (h2 : dhas s.points d2 = true)
    (h3 : (d1 == d2) = false) :
    construct_line none s d1 d2 lbl nid =
      (Except.ok (nid,
        { s with lines := dinsert s.lines nid ⟨nid, d1, d2, lbl, [d1, d2]⟩ }),
       { s with lines := dinsert s.lines nid ⟨nid, d1, d2, lbl, [d1, d2]⟩ }) := by
  simp [construct_line, h1, h2, h3]

/-- Characterization of fallback `construct_circle` when the checks pass. -/
lemma construct_circle_fallback_eq (s : ConstructionSpace) (d1 d2 : String)
    (lbl : Option String) (nid : String)
    (h1 : dhas s.points d1 = true) (h2 : dhas s.points d2 = true)
    (h3 : (d1 == d2) = false) :
    construct_circle none s d1 d2 lbl nid =
      (Except.ok (nid,
        { s with circles := dinsert s.circles nid ⟨nid, d1, d2, lbl, [d1, d2]⟩ }),
       { s with circles := dinsert s.circles nid ⟨nid, d1, d2, lbl, [d1, d2]⟩ }) := by
  simp [construct_circle, h1, h2, h3]

/-- Inversion: a successful fallback `construct_line` implies the checks
passed and pins down the result. -/
lemma construct_line_fallback_ok (s : ConstructionSpace) (d1 d2 : String)
    (lbl : Option String) (nid : String) (pr : String × ConstructionSpace)
    (h : (construct_line none s d1 d2 lbl nid).1 = Except.ok pr) :
    dhas s.points d1 = true ∧ dhas s.points d2 = true ∧ (d1 == d2) = false
    ∧ pr = (nid,
        { s with lines := dinsert s.lines nid ⟨nid, d1, d2, lbl, [d1, d2]⟩ }) := by
  cases h1 : dhas s.points d1 with
  | false => simp [construct_line, h1] at h
  | true =>
    cases h2 : dhas s.points d2 with
    | false => simp [construct_line, h1, h2] at h
    | true =>
      cases h3 : d1 == d2 with
      | true => simp [construct_line, h1, h2, h3] at h
      | false =>
        simp [construct_line, h1, h2, h3] at h
        exact ⟨rfl, rfl, rfl, h.symm⟩

/-- Inversion: a successful fallback `construct_circle`. -/
lemma construct_circle_fallback_ok (s : ConstructionSpace) (d1 d2 : String)
    (lbl : Option String) (nid : String) (pr : String × ConstructionSpace)
    (h : (construct_circle none s d1 d2 lbl nid).1 = Except.ok pr) :
    dhas s.points d1 = true ∧ dhas s.points d2 = true ∧ (d1 == d2) = false
    ∧ pr = (nid,
        { s with circles := dinsert s.circles nid ⟨nid, d1, d2, lbl, [d1, d2]⟩ }) := by
  cases h1 : dhas s.points d1 with
  | false => simp [construct_circle, h1] at h
  | true =>
    cases h2 : dhas s.points d2 with
    | false => simp [construct_circle, h1, h2] at h
    | true =>
      cases h3 : d1 == d2 with
      | true => simp [construct_circle, h1, h2, h3] at h
      | false =>
        simp [construct_circle, h1, h2, h3] at h
        exact ⟨rfl, rfl, rfl, h.symm⟩

/-- In delegated mode no operation writes through the caller's space. -/
lemma add_point_delegated_caller (e : Engine) (s : ConstructionSpace)
    (x y : Coord) (lbl : Option String) (nid : String) :
    (add_point (some e) s x y lbl nid).2 = s := by
  cases h : e.addPointCmd s x y lbl <;> simp [add_point, h]

lemma construct_line_delegated_caller (e : Engine) (s : ConstructionSpace)
    (a b : String) (lbl : Option String) (nid : String) :
    (construct_line (some e) s a b lbl nid).2 = s := by
  cases h1 : dhas s.points a <;> cases h2 : dhas s.points b <;>
    cases h3 : a == b <;> cases h4 : e.constructLineCmd s a b lbl <;>
    simp [construct_line, h1, h2, h3, h4]

lemma construct_circle_delegated_caller (e : Engine) (s : ConstructionSpace)
    (a b : String) (lbl : Option String) (nid : String) :
    (construct_circle (some e) s a b lbl nid).2 = s := by
  cases h1 : dhas s.points a <;> cases h2 : dhas s.points b <;>
    cases h3 : a == b <;> cases h4 : e.constructCircleCmd s a b lbl <;>
    simp [construct_circle, h1, h2, h3, h4]

lemma find_intersections_delegated_caller (e : Engine)
    (s : ConstructionSpace) (a b : String) :
    (find_intersections (some e) s a b).2 = s := by
  cases h : e.findIntersectionsCmd s a b <;> simp [find_intersections, h]

/-- C8: in fallback mode, `find_intersections` returns the empty
intersection list together with the space passed in, unchanged (hence in
particular unchanged outside its history), for every space and every pair
of object identifiers. -/
theorem c8_fallback_find_intersections (s : ConstructionSpace)
    (a b : String) : find_intersections none s a b = (Except.ok ([], s), s) :=
  rfl

/-- C6, counterexample: the health check answers `true` both in fallback
mode and in delegated mode with an available engine, so the two results are
equal and a caller cannot distinguish degraded fallback mode from an
available delegated engine through the health check. -/
theorem c6_counterexample :
    health_check none = true ∧ health_check (some healthyEngine) = true :=
  ⟨rfl, rfl⟩

/-- C6, amended: the health check returns `true` in fallback mode; with a
configured engine it returns the comparison of the response's status field
with the string healthy, and `false` when the call raises or the status
field is absent. Fallback mode is therefore not distinguishable from an
available delegated engine through the health-check result. -/
theorem c6_health_check_modes (e : Engine) :
    health_check none = true
    ∧ (∀ msg, e.healthCmd = Except.error msg → health_check (some e) = false)
    ∧ (∀ st, e.healthCmd = Except.ok (some st) →
        health_check (some e) = (st == "healthy"))
    ∧ (e.healthCmd = Except.ok none → health_check (some e) = false) := by
  refine ⟨rfl, ?_, ?_, ?_⟩
  · intro msg h
    simp [health_check, h]
  · intro st h
    simp [health_check, h]
  · intro h
    simp [health_check, h]

theorem c6_witness :
    health_check none = true ∧ health_check (some failEngine) = false :=
  ⟨(c6_health_check_modes failEngine).1,
   (c6_health_check_modes failEngine).2.1 "engine unavailable" rfl⟩

/-- C3, evaluation at the failing input: for a space containing the single
point `A`, the fallback validator accepts a `construct_line` step and a
`construct_circle` step whose two dependencies are both `A` (its membership
check `all(dep in construction_space.points ...)` passes and no
distinctness check exists), and the `validate-step` endpoint therefore
reports the step valid with no suggestions — where the claim requires
`is_valid == false`. -/
theorem c3_validator_accepts_identical_dependencies :
    validate_construction none spaceA
      { step_type := "construct_line", dependencies := ["A", "A"] } =
      Except.ok true
    ∧ validate_construction none spaceA
      { step_type := "construct_circle", dependencies := ["A", "A"] } =
      Except.ok true
    ∧ validate_construction_step none spaceA
      { step_number := 1, step_type := "construct_line",
        dependencies := ["A", "A"] } = Except.ok (true, []) := by
  refine ⟨rfl, rfl, rfl⟩

/-- C5, evaluation at the failing input: the fallback validator ignores
arity entirely — a `construct_line` step with a single (existing)
dependency and a `find_intersections` step with a single dependency are
both reported valid by the `validate-step` endpoint, with an empty
suggestion list — where the claim requires `is_valid == false` plus an
arity suggestion. -/
theorem c5_validator_ignores_arity :
    validate_construction_step none spaceA
      { step_number := 1, step_type := "construct_line",
        dependencies := ["A"] } = Except.ok (true, [])
    ∧ validate_construction_step none spaceA
      { step_number := 1, step_type := "find_intersections",
        dependencies := ["A"] } = Except.ok (true, []) := by
  refine ⟨rfl, rfl⟩

/-- C2, counterexample: fallback `add_point` writes the new point into the
caller's space object (dict item assignment mutates it in place), so after
the call the caller's space is no longer the empty space that was passed
in. -/
theorem c2_counterexample :
    (add_point none emptySpace 0 0 none "p1").2 ≠ emptySpace := by
  decide

/-- C4, counterexample to the claimed equivalence: with a configured but
failing engine, `construct_line` raises a `GeometryEngineError` even though
both point identifiers exist in the space and differ — so the error is not
raised exactly when a dependency is absent or the identifiers coincide. -/
theorem c4_counterexample :
    dhas spaceAB.points "A" = true ∧ dhas spaceAB.points "B" = true
    ∧ "A" ≠ "B"
    ∧ (construct_line (some failEngine) spaceAB "A" "B" none "L1").1 =
        Except.error "Failed to construct line: engine unavailable" := by
  refine ⟨rfl, rfl, by decide, rfl⟩

/-- C9, counterexample: a space with 4 lines, 2 circles and 3 points
satisfies the claim's condition (at least 3 lines, at least 2 circles, at
least 3 points) but the analysis pattern match does not identify the
triangle pattern, because the source compares the line count with 3 by
equality. -/
theorem c9_counterexample :
    3 ≤ space4L.lines.length ∧ 2 ≤ space4L.circles.length
    ∧ 3 ≤ space4L.points.length
    ∧ ("equilateral_triangle" ∈ analyze_identified_patterns space4L → False) := by
  decide

/-- C10: for distinct point identifiers present in the space's points dict
and a fresh generated identifier, fallback `construct_line` succeeds and
appends exactly one line, whose `point1_id`, `point2_id` and
`dependencies` fields are as claimed, to the lines dict, every other
component of the space (points, circles, history) being left unchanged by
the record update; fallback `construct_circle` is symmetric on the circles
dict. -/
theorem c10_fallback_construct_effects (s : ConstructionSpace)
    (p1 p2 : String) (lbl : Option String) (nid : String)
    (h1 : dhas s.points p1 = true) (h2 : dhas s.points p2 = true)
    (hne : p1 ≠ p2) (hl : dhas s.lines nid = false)
    (hc : dhas s.circles nid = false) :
    construct_line none s p1 p2 lbl nid =
      (Except.ok (nid,
        { s with lines := s.lines ++ [(nid, ⟨nid, p1, p2, lbl, [p1, p2]⟩)] }),
       { s with lines := s.lines ++ [(nid, ⟨nid, p1, p2, lbl, [p1, p2]⟩)] })
    ∧ (s.lines ++ [(nid, (⟨nid, p1, p2, lbl, [p1, p2]⟩ : Line))]).length =
        s.lines.length + 1
    ∧ construct_circle none s p1 p2 lbl nid =
      (Except.ok (nid,
        { s with circles := s.circles ++ [(nid, ⟨nid, p1, p2, lbl, [p1, p2]⟩)] }),
       { s with circles := s.circles ++ [(nid, ⟨nid, p1, p2, lbl, [p1, p2]⟩)] })
    ∧ (s.circles ++ [(nid, (⟨nid, p1, p2, lbl, [p1, p2]⟩ : Circle))]).length =
        s.circles.length + 1 := by
  have hb : (p1 == p2) = false := by
    cases hx : p1 == p2
    · rfl
    · exact absurd (eq_of_beq hx) hne
  refine ⟨?_, by simp, ?_, by simp⟩
  · have := construct_line_fallback_eq s p1 p2 lbl nid h1 h2 hb
    rwa [dinsert_of_fresh s.lines nid _ hl] at this
  · have := construct_circle_fallback_eq s p1 p2 lbl nid h1 h2 hb
    rwa [dinsert_of_fresh s.circles nid _ hc] at this

theorem c10_witness :
    construct_line none spaceAB "A" "B" none "L1" =
      (Except.ok ("L1", spaceABL), spaceABL) :=
  (c10_fallback_construct_effects spaceAB "A" "B" none "L1"
    (by decide) (by decide) (by decide) (by decide) (by decide)).1

/-- C2, amended: in delegated mode every operation leaves the caller's
space object untouched, and fallback `find_intersections` also returns it
unchanged; but the fallback branches of `add_point`, `construct_line` and
`construct_circle` mutate the caller's space in place, so after a
successful fallback call the caller's object IS the updated space rather
than the original. (The `execute-sequence` endpoint protects its caller
separately, by deep-copying the initial space before the loop.) -/
theorem c2_operation_aliasing (e : Engine) (s : ConstructionSpace)
    (x y : Coord) (lbl : Option String) (nid a b : String) :
    (add_point (some e) s x y lbl nid).2 = s
    ∧ (construct_line (some e) s a b lbl nid).2 = s
    ∧ (construct_circle (some e) s a b lbl nid).2 = s
    ∧ (find_intersections (some e) s a b).2 = s
    ∧ (find_intersections none s a b).2 = s
    ∧ (add_point none s x y lbl nid).1 =
        Except.ok (nid, (add_point none s x y lbl nid).2)
    ∧ (∀ lid sp, (construct_line none s a b lbl nid).1 = Except.ok (lid, sp) →
        (construct_line none s a b lbl nid).2 = sp)
    ∧ (∀ cid sp, (construct_circle none s a b lbl nid).1 = Except.ok (cid, sp) →
        (construct_circle none s a b lbl nid).2 = sp) := by
  refine ⟨add_point_delegated_caller e s x y lbl nid,
    construct_line_delegated_caller e s a b lbl nid,
    construct_circle_delegated_caller e s a b lbl nid,
    find_intersections_delegated_caller e s a b, rfl, rfl, ?_, ?_⟩
  · intro lid sp heq
    obtain ⟨h1, h2, h3, h4⟩ := construct_line_fallback_ok s a b lbl nid _ heq
    rw [construct_line_fallback_eq s a b lbl nid h1 h2 h3]
    exact (congrArg Prod.snd h4).symm
  · intro cid sp heq
    obtain ⟨h1, h2, h3, h4⟩ := construct_circle_fallback_ok s a b lbl nid _ heq
    rw [construct_circle_fallback_eq s a b lbl nid h1 h2 h3]
    exact (congrArg Prod.snd h4).symm

theorem c2_witness :
    (construct_line none spaceAB "A" "B" none "L1").2 = spaceABL :=
  (c2_operation_aliasing failEngine spaceAB 0 0 none "L1" "A" "B").2.2.2.2.2.2.1
    "L1" spaceABL (by rfl)

/-- C4, amended: whenever one of the two identifiers is absent from the
points dict or the two coincide, `construct_line` / `construct_circle`
raise a `GeometryEngineError` before any delegation attempt (the outcome is
the same whatever engine is configured), and whenever either operation
raises, the caller's space is unchanged; in fallback mode these are the
only error cases. The raising is however not *exactly* under those
conditions: in delegated mode a failing engine call also raises a
`GeometryEngineError` (the claim's counterexample). -/
theorem c4_referential_errors (mode : Mode) (s : ConstructionSpace)
    (a b : String) (lbl : Option String) (nid : String) :
    (¬(dhas s.points a = true ∧ dhas s.points b = true ∧ a ≠ b) →
      construct_line mode s a b lbl nid = construct_line none s a b lbl nid
      ∧ isErr (construct_line mode s a b lbl nid).1 = true)
    ∧ (isErr (construct_line mode s a b lbl nid).1 = true →
        (construct_line mode s a b lbl nid).2 = s)
    ∧ (dhas s.points a = true → dhas s.points b = true → a ≠ b →
        isErr (construct_line none s a b lbl nid).1 = false)
    ∧ (¬(dhas s.points a = true ∧ dhas s.points b = true ∧ a ≠ b) →
      construct_circle mode s a b lbl nid = construct_circle none s a b lbl nid
      ∧ isErr (construct_circle mode s a b lbl nid).1 = true)
    ∧ (isErr (construct_circle mode s a b lbl nid).1 = true →
        (construct_circle mode s a b lbl nid).2 = s)
    ∧ (dhas s.points a = true → dhas s.points b = true → a ≠ b →
        isErr (construct_circle none s a b lbl nid).1 = false) := by
  refine ⟨?_, ?_, ?_, ?_, ?_, ?_⟩
  · intro h
    cases h1 : dhas s.points a with
    | false => cases mode <;> simp [construct_line, h1, isErr]
    | true =>
      cases h2 : dhas s.points b with
      | false => cases mode <;> simp [construct_line, h1, h2, isErr]
      | true =>
        cases h3 : a == b with
        | true => cases mode <;> simp [construct_line, h1, h2, h3, isErr]
        | false => exact absurd ⟨h1, h2, ne_of_beq_false h3⟩ h
  · intro h
    cases mode with
    | some e => exact construct_line_delegated_caller e s a b lbl nid
    | none =>
      cases h1 : dhas s.points a with
      | false => simp [construct_line, h1]
      | true =>
        cases h2 : dhas s.points b with
        | false => simp [construct_line, h1, h2]
        | true =>
          cases h3 : a == b with
          | true => simp [construct_line, h1, h2, h3]
          | false =>
            rw [construct_line_fallback_eq s a b lbl nid h1 h2 h3] at h
            simp [isErr] at h
  · intro h1 h2 hne
    have hb : (a == b) = false := by
      cases hx : a == b
      · rfl
      · exact absurd (eq_of_beq hx) hne
    rw [construct_line_fallback_eq s a b lbl nid h1 h2 hb]
    rfl
  · intro h
    cases h1 : dhas s.points a with
    | false => cases mode <;> simp [construct_circle, h1, isErr]
    | true =>
      cases h2 : dhas s.points b with
      | false => cases mode <;> simp [construct_circle, h1, h2, isErr]
      | true =>
        cases h3 : a == b with
        | true => cases mode <;> simp [construct_circle, h1, h2, h3, isErr]
        | false => exact absurd ⟨h1, h2, ne_of_beq_false h3⟩ h
  · intro h
    cases mode with
    | some e => exact construct_circle_delegated_caller e s a b lbl nid
    | none =>
      cases h1 : dhas s.points a with
      | false => simp [construct_circle, h1]
      | true =>
        cases h2 : dhas s.points b with
        | false => simp [construct_circle, h1, h2]
        | true =>
          cases h3 : a == b with
          | true => simp [construct_circle, h1, h2, h3]
          | false =>
            rw [construct_circle_fallback_eq s a b lbl nid h1 h2 h3] at h
            simp [isErr] at h
  · intro h1 h2 hne
    have hb : (a == b) = false := by
      cases hx : a == b
      · rfl
      · exact absurd (eq_of_beq hx) hne
    rw [construct_circle_fallback_eq s a b lbl nid h1 h2 hb]
    rfl

theorem c4_witness :
    construct_line (some failEngine) spaceA "A" "A" none "L1" =
      construct_line none spaceA "A" "A" none "L1"
    ∧ (construct_line (some failEngine) spaceA "A" "A" none "L1").2 = spaceA := by
  have h := c4_referential_errors (some failEngine) spaceA "A" "A" none "L1"
  exact ⟨(h.1 (by decide)).1, h.2.1 (h.1 (by decide)).2⟩

/-- C9, amended: the analysis-side triangle pattern is a pure predicate
over the space's aggregate counts, holding exactly when the space has
exactly 3 lines (not at least 3), at least 2 circles and at least 3 points;
the unlock-side triangle predicate (for an element with nonempty unlock
requirements) is the count predicate of at least 3 lines and at least 2
circles. -/
theorem c9_triangle_pattern_counts (s : ConstructionSpace) :
    ("equilateral_triangle" ∈ analyze_identified_patterns s ↔
      (s.lines.length = 3 ∧ 2 ≤ s.circles.length ∧ 3 ≤ s.points.length))
    ∧ (∀ reqs : List String, reqs ≠ [] →
        can_unlock_element "equilateral_triangle" reqs s =
          (decide (3 ≤ s.lines.length) && decide (2 ≤ s.circles.length))) := by
  constructor
  · have hs1 : "equilateral_triangle" ≠ "perpendicular_bisector" := by decide
    have hs2 : "equilateral_triangle" ≠ "circle" := by decide
    have hs3 : "equilateral_triangle" ≠ "line_segment" := by decide
    simp only [analyze_identified_patterns, List.mem_append]
    split_ifs <;> simp_all
  · intro reqs hne
    cases reqs with
    | nil => exact absurd rfl hne
    | cons r rs =>
      have e1 : ("equilateral_triangle" == "line_segment") = false := by decide
      have e2 : ("equilateral_triangle" == "circle") = false := by decide
      simp [can_unlock_element, e1, e2]

theorem c9_witness :
    can_unlock_element "equilateral_triangle" ["basic_point"] space4L = true := by
  rw [(c9_triangle_pattern_counts space4L).2 ["basic_point"] (by decide)]
  decide

/-- Full characterization of the validate-sequence loop on a successful
run: at most one result per step, each verdict is the bridge validator's
verdict on the corresponding step against the fixed initial snapshot, the
step numbers count up from `idx + 1`, every recorded result but possibly
the last is valid, and a run that recorded fewer results than there are
steps ended on an invalid one. -/
lemma validate_sequence_go_spec (mode : Mode) (s : ConstructionSpace) :
    ∀ (steps : List ConstructionStep) (idx : Nat) (rs : List StepValidation),
      validate_sequence_go mode s steps idx = Except.ok rs →
      rs.length ≤ steps.length
      ∧ (∀ k (hk : k < rs.length) (hs : k < steps.length),
          validate_construction mode s (steps.get ⟨k, hs⟩).data =
            Except.ok (rs.get ⟨k, hk⟩).is_valid)
      ∧ (∀ k (hk : k < rs.length), (rs.get ⟨k, hk⟩).step_number = idx + k + 1)
      ∧ (∀ k (hk : k < rs.length), k + 1 < rs.length →
          (rs.get ⟨k, hk⟩).is_valid = true)
      ∧ (rs.length < steps.length →
          ∃ r, rs.getLast? = some r ∧ r.is_valid = false) := by
  intro steps
  induction steps with
  | nil =>
    intro idx rs h
    simp only [validate_sequence_go] at h
    cases h
    refine ⟨Nat.le_refl 0, ?_, ?_, ?_, ?_⟩
    · intro k hk
      exact absurd hk (Nat.not_lt_zero k)
    · intro k hk
      exact absurd hk (Nat.not_lt_zero k)
    · intro k hk
      exact absurd hk (Nat.not_lt_zero k)
    · intro h0
      exact absurd h0 (Nat.lt_irrefl 0)
  | cons st rest ih =>
    intro idx rs h
    simp only [validate_sequence_go] at h
    cases hv : validate_construction mode s st.data with
    | error msg =>
      rw [hv] at h
      cases h
    | ok b =>
      rw [hv] at h
      cases b with
      | false =>
        simp only [if_neg, Bool.false_eq_true, not_false_eq_true, if_false] at h
        cases h
        refine ⟨Nat.succ_le_succ (Nat.zero_le _), ?_, ?_, ?_, ?_⟩
        · intro k hk hs
          cases k with
          | zero => exact hv
          | succ k => exact absurd hk (by simp at hk)
        · intro k hk
          cases k with
          | zero => rfl
          | succ k => exact absurd hk (by simp at hk)
        · intro k hk hk1
          simp only [List.length_singleton] at hk1
          omega
        · intro _
          exact ⟨_, rfl, rfl⟩
      | true =>
        simp only [if_pos] at h
        cases hr : validate_sequence_go mode s rest (idx + 1) with
        | error msg =>
          rw [hr] at h
          cases h
        | ok rs' =>
          rw [hr] at h
          cases h
          obtain ⟨ih1, ih2, ih3, ih4, ih5⟩ := ih (idx + 1) rs' hr
          refine ⟨Nat.succ_le_succ ih1, ?_, ?_, ?_, ?_⟩
          · intro k hk hs
            cases k with
            | zero => exact hv
            | succ k =>
              exact ih2 k (Nat.lt_of_succ_lt_succ hk) (Nat.lt_of_succ_lt_succ hs)
          · intro k hk
            cases k with
            | zero => rfl
            | succ k =>
              have := ih3 k (Nat.lt_of_succ_lt_succ hk)
              simpa [Nat.add_assoc, Nat.add_comm, Nat.add_left_comm] using this
          · intro k hk hk1
            cases k with
            | zero => rfl
            | succ k =>
              exact ih4 k (Nat.lt_of_succ_lt_succ hk) (Nat.lt_of_succ_lt_succ hk1)
          · intro hlt
            obtain ⟨r, hr1, hr2⟩ := ih5 (Nat.lt_of_succ_lt_succ hlt)
            cases rs' with
            | nil => cases hr1
            | cons r0 rs0 =>
              exact ⟨r, by rw [List.getLast?_cons_cons]; exact hr1, hr2⟩

/-- C7: on a successful run, the validate-sequence endpoint has evaluated
every recorded step with the bridge validator against the initial space
snapshot (no step is applied in between — the loop never updates its
snapshot), has stopped recording further results at the first invalid step
(all recorded results but possibly the last are valid, and a run shorter
than the sequence ends on an invalid result), and reports overall validity
equal to the conjunction of all evaluated steps' verdicts. -/
theorem c7_validate_sequence_spec (mode : Mode)
    (steps : List ConstructionStep) (s0 : ConstructionSpace)
    (rep : SequenceValidationReport)
    (h : validate_construction_sequence mode steps s0 = Except.ok rep) :
    rep.validation_results.length ≤ steps.length
    ∧ (∀ k (hk : k < rep.validation_results.length) (hs : k < steps.length),
        validate_construction mode s0 (steps.get ⟨k, hs⟩).data =
          Except.ok (rep.validation_results.get ⟨k, hk⟩).is_valid)
    ∧ (∀ k (hk : k < rep.validation_results.length),
        (rep.validation_results.get ⟨k, hk⟩).step_number = k + 1)
    ∧ (∀ k (hk : k < rep.validation_results.length),
        k + 1 < rep.validation_results.length →
          (rep.validation_results.get ⟨k, hk⟩).is_valid = true)
    ∧ (rep.validation_results.length < steps.length →
        ∃ r, rep.validation_results.getLast? = some r ∧ r.is_valid = false)
    ∧ rep.overall_valid =
        rep.validation_results.all (fun r => r.is_valid) := by
  unfold validate_construction_sequence at h
  cases hg : validate_sequence_go mode s0 steps 0 with
  | error msg =>
    rw [hg] at h
    cases h
  | ok rs =>
    rw [hg] at h
    cases h
    obtain ⟨h1, h2, h3, h4, h5⟩ := validate_sequence_go_spec mode s0 steps 0 rs hg
    exact ⟨h1, h2, fun k hk => by simpa using h3 k hk, h4, h5, rfl⟩

/-- What one successful fallback step execution does to the space: the
history is untouched, exactly the step's own object kind grows by one (the
generated identifier being fresh), the created identifier is the generated
one exactly for the three creating step types, and every key of the result
is either an old key or the generated identifier. -/
lemma execute_step_fallback_ok (st : ConstructionStep) (s : ConstructionSpace)
    (nid : String) (r : StepResult)
    (hfp : dhas s.points nid = false) (hfl : dhas s.lines nid = false)
    (hfc : dhas s.circles nid = false)
    (hE : execute_step none st s nid = Except.ok r) :
    r.updatedSpace.history = s.history
    ∧ r.updatedSpace.points.length =
        s.points.length + (if st.step_type == "add_point" then 1 else 0)
    ∧ r.updatedSpace.lines.length =
        s.lines.length + (if st.step_type == "construct_line" then 1 else 0)
    ∧ r.updatedSpace.circles.length =
        s.circles.length + (if st.step_type == "construct_circle" then 1 else 0)
    ∧ r.createdId =
        (if st.step_type == "add_point" || st.step_type == "construct_line"
            || st.step_type == "construct_circle" then some nid else none)
    ∧ (∀ x, dhas r.updatedSpace.points x = true →
        dhas s.points x = true ∨ x = nid)
    ∧ (∀ x, dhas r.updatedSpace.lines x = true →
        dhas s.lines x = true ∨ x = nid)
    ∧ (∀ x, dhas r.updatedSpace.circles x = true →
        dhas s.circles x = true ∨ x = nid) := by
  cases hA : st.step_type == "add_point" with
  | true =>
    simp only [execute_step, hA, if_true, add_point] at hE
    cases hE
    refine ⟨rfl, ?_, ?_, ?_, ?_, ?_, ?_, ?_⟩
    · simp [StepResult.updatedSpace, hA, dinsert_of_fresh _ _ _ hfp]
    · simp [StepResult.updatedSpace, eq_of_beq hA]
    · simp [StepResult.updatedSpace, eq_of_beq hA]
    · simp [StepResult.createdId, hA]
    · intro x hx
      simp only [StepResult.updatedSpace, dinsert_of_fresh _ _ _ hfp,
        dhas_append, dhas_single, Bool.or_eq_true] at hx
      cases hx with
      | inl h => exact Or.inl h
      | inr h => exact Or.inr (eq_of_beq h).symm
    · intro x hx
      exact Or.inl hx
    · intro x hx
      exact Or.inl hx
  | false =>
    cases hB : st.step_type == "construct_line" with
    | true =>
      simp only [execute_step, hA, hB, if_true, Bool.false_eq_true,
        if_false] at hE
      split at hE
      · split at hE
        · cases hE
          rename_i heq
          obtain ⟨p1, p2, pne, hpr⟩ :=
            construct_line_fallback_ok _ _ _ _ _ _ heq
          injection hpr with hlid hsp
          subst hlid
          subst hsp
          refine ⟨rfl, ?_, ?_, ?_, ?_, ?_, ?_, ?_⟩
          · simp [StepResult.updatedSpace, eq_of_beq hB]
          · simp [StepResult.updatedSpace, hB,
              dinsert_of_fresh _ _ _ hfl]
          · simp [StepResult.updatedSpace, eq_of_beq hB]
          · simp [StepResult.createdId, hA, hB]
          · intro x hx
            exact Or.inl hx
          · intro x hx
            simp only [StepResult.updatedSpace,
              dinsert_of_fresh _ _ _ hfl, dhas_append, dhas_single,
              Bool.or_eq_true] at hx
            cases hx with
            | inl h => exact Or.inl h
            | inr h => exact Or.inr (eq_of_beq h).symm
          · intro x hx
            exact Or.inl hx
        · cases hE
      · cases hE
    | false =>
      cases hCc : st.step_type == "construct_circle" with
      | true =>
        simp only [execute_step, hA, hB, hCc, if_true, Bool.false_eq_true,
          if_false] at hE
        split at hE
        · split at hE
          · cases hE
            rename_i heq
            obtain ⟨p1, p2, pne, hpr⟩ :=
              construct_circle_fallback_ok _ _ _ _ _ _ heq
            injection hpr with hcid hsp
            subst hcid
            subst hsp
            refine ⟨rfl, ?_, ?_, ?_, ?_, ?_, ?_, ?_⟩
            · simp [StepResult.updatedSpace, eq_of_beq hCc]
            · simp [StepResult.updatedSpace, eq_of_beq hCc]
            · simp [StepResult.updatedSpace, hCc,
                dinsert_of_fresh _ _ _ hfc]
            · simp [StepResult.createdId, hA, hB, hCc]
            · intro x hx
              exact Or.inl hx
            · intro x hx
              exact Or.inl hx
            · intro x hx
              simp only [StepResult.updatedSpace,
                dinsert_of_fresh _ _ _ hfc, dhas_append,
                dhas_single, Bool.or_eq_true] at hx
              cases hx with
              | inl h => exact Or.inl h
              | inr h => exact Or.inr (eq_of_beq h).symm
          · cases hE
        · cases hE
      | false =>
        cases hD : st.step_type == "find_intersections" with
        | true =>
          simp only [execute_step, hA, hB, hCc, hD, if_true,
            Bool.false_eq_true, if_false, find_intersections] at hE
          split at hE
          · cases hE
            refine ⟨rfl, ?_, ?_, ?_, ?_, ?_, ?_, ?_⟩
            · simp [StepResult.updatedSpace, hA]
            · simp [StepResult.updatedSpace, hB]
            · simp [StepResult.updatedSpace, hCc]
            · simp [StepResult.createdId, hA, hB, hCc]
            · intro x hx
              exact Or.inl hx
            · intro x hx
              exact Or.inl hx
            · intro x hx
              exact Or.inl hx
          · cases hE
        | false =>
          simp only [execute_step, hA, hB, hCc, hD, Bool.false_eq_true,
            if_false] at hE
          cases hE

/-- Full characterization of the execute-sequence loop in fallback mode on
an all-successful run with fresh, pairwise-distinct generated identifiers:
one success entry per step in order, history untouched, each object count
grown by exactly the number of steps of the corresponding creating type,
and each entry recording the identifier generated for its step. -/
lemma exec_go_fallback_spec (fresh : Nat → String) :
    ∀ (steps : List ConstructionStep) (s : ConstructionSpace) (i : Nat),
      (∀ j, j < i + steps.length → i ≤ j →
        dhas s.points (fresh j) = false ∧ dhas s.lines (fresh j) = false ∧
          dhas s.circles (fresh j) = false) →
      (∀ j, j < i + steps.length → ∀ k, k < i + steps.length →
        fresh j = fresh k → j = k) →
      (exec_go none fresh steps s i).1.all (fun r => r.success) = true →
      (exec_go none fresh steps s i).1.length = steps.length
      ∧ (exec_go none fresh steps s i).2.history = s.history
      ∧ (exec_go none fresh steps s i).2.points.length =
          s.points.length +
            steps.countP (fun st => st.step_type == "add_point")
      ∧ (exec_go none fresh steps s i).2.lines.length =
          s.lines.length +
            steps.countP (fun st => st.step_type == "construct_line")
      ∧ (exec_go none fresh steps s i).2.circles.length =
          s.circles.length +
            steps.countP (fun st => st.step_type == "construct_circle")
      ∧ (∀ k (hk : k < (exec_go none fresh steps s i).1.length)
            (hs : k < steps.length),
          ((exec_go none fresh steps s i).1.get ⟨k, hk⟩).step_number = i + k + 1
          ∧ ((exec_go none fresh steps s i).1.get ⟨k, hk⟩).success = true
          ∧ ((exec_go none fresh steps s i).1.get ⟨k, hk⟩).result.bind
              StepResult.createdId =
            (if (steps.get ⟨k, hs⟩).step_type == "add_point"
                || (steps.get ⟨k, hs⟩).step_type == "construct_line"
                || (steps.get ⟨k, hs⟩).step_type == "construct_circle"
              then some (fresh (i + k)) else none)) := by
  intro steps
  induction steps with
  | nil =>
    intro s i _ _ _
    refine ⟨rfl, rfl, by simp [exec_go], by simp [exec_go], by simp [exec_go], ?_⟩
    intro k hk
    exact absurd hk (Nat.not_lt_zero k)
  | cons st rest ih =>
    intro s i hfr hinj hsucc
    have hlt : i < i + (st :: rest).length := by
      simp only [List.length_cons]
      omega
    cases hE : execute_step none st s (fresh i) with
    | error msg =>
      exfalso
      simp only [exec_go, hE] at hsucc
      simp at hsucc
    | ok r =>
      have hgo : exec_go none fresh (st :: rest) s i =
          (⟨i + 1, true, some r, none⟩ ::
            (exec_go none fresh rest r.updatedSpace (i + 1)).1,
           (exec_go none fresh rest r.updatedSpace (i + 1)).2) := by
        simp only [exec_go, hE]
      have hfi := hfr i hlt (Nat.le_refl i)
      have F := execute_step_fallback_ok st s (fresh i) r
        hfi.1 hfi.2.1 hfi.2.2 hE
      have hfr' : ∀ j, j < (i + 1) + rest.length → (i + 1) ≤ j →
          dhas r.updatedSpace.points (fresh j) = false ∧
          dhas r.updatedSpace.lines (fresh j) = false ∧
          dhas r.updatedSpace.circles (fresh j) = false := by
        intro j hj1 hj2
        have hj1' : j < i + (st :: rest).length := by
          simp only [List.length_cons]
          omega
        have hbase := hfr j hj1' (by omega)
        have hne : fresh j ≠ fresh i := by
          intro hh
          have := hinj j hj1' i hlt hh
          omega
        refine ⟨?_, ?_, ?_⟩
        · cases hx : dhas r.updatedSpace.points (fresh j) with
          | false => rfl
          | true =>
            cases F.2.2.2.2.2.1 (fresh j) hx with
            | inl h => exact absurd h (by simp [hbase.1])
            | inr h => exact absurd h hne
        · cases hx : dhas r.updatedSpace.lines (fresh j) with
          | false => rfl
          | true =>
            cases F.2.2.2.2.2.2.1 (fresh j) hx with
            | inl h => exact absurd h (by simp [hbase.2.1])
            | inr h => exact absurd h hne
        · cases hx : dhas r.updatedSpace.circles (fresh j) with
          | false => rfl
          | true =>
            cases F.2.2.2.2.2.2.2 (fresh j) hx with
            | inl h => exact absurd h (by simp [hbase.2.2])
            | inr h => exact absurd h hne
      have hinj' : ∀ j, j < (i + 1) + rest.length → ∀ k,
          k < (i + 1) + rest.length → fresh j = fresh k → j = k := by
        intro j hj k hk hh
        refine hinj j ?_ k ?_ hh <;> (simp only [List.length_cons]; omega)
      have hsucc' : (exec_go none fresh rest r.updatedSpace (i + 1)).1.all
          (fun r => r.success) = true := by
        rw [hgo] at hsucc
        simpa using hsucc
      obtain ⟨ih1, ih2, ih3, ih4, ih5, ih6⟩ :=
        ih r.updatedSpace (i + 1) hfr' hinj' hsucc'
      rw [hgo]
      refine ⟨by simp [ih1], ?_, ?_, ?_, ?_, ?_⟩
      · rw [ih2, F.1]
      · rw [ih3, F.2.1, List.countP_cons]
        cases hA : st.step_type == "add_point" <;> (simp [hA]; try omega)
      · rw [ih4, F.2.2.1, List.countP_cons]
        cases hB : st.step_type == "construct_line" <;> (simp [hB]; try omega)
      · rw [ih5, F.2.2.2.1, List.countP_cons]
        cases hC : st.step_type == "construct_circle" <;> (simp [hC]; try omega)
      · intro k hk hs
        cases k with
        | zero => exact ⟨rfl, rfl, F.2.2.2.2.1⟩
        | succ k =>
          have hk' : k < (exec_go none fresh rest r.updatedSpace (i + 1)).1.length := by
            simp only [List.length_cons] at hk
            omega
          have hs' : k < rest.length := Nat.lt_of_succ_lt_succ hs
          obtain ⟨e1, e2, e3⟩ := ih6 k hk' hs'
          have harith : i + 1 + k = i + (k + 1) := by omega
          rw [harith] at e1 e3
          exact ⟨e1, e2, e3⟩

/-- A concrete add-point step. -/
def stepAddP : ConstructionStep :=
  { step_number := 1, step_type := "add_point",
    metadata := { x := some 0, y := some 0 } }

/-- A construct-line step referencing the nonexistent point `Z`. -/
def stepBadLine : ConstructionStep :=
  { step_number := 2, step_type := "construct_line",
    dependencies := ["A", "Z"] }

/-- The report the validate-sequence endpoint produces for
`[stepAddP, stepBadLine]` on `spaceA` in fallback mode. -/
def rep0 : SequenceValidationReport :=
  { overall_valid := false
    validation_results :=
      [⟨1, true, []⟩,
       ⟨2, false,
        ["Required object \x27Z\x27 does not exist in construction space"]⟩]
    total_steps := 2
    valid_steps := 1
    invalid_steps := 1 }

theorem c7_witness :
    validate_construction_sequence none [stepAddP, stepBadLine] spaceA =
      Except.ok rep0
    ∧ rep0.validation_results.length ≤ [stepAddP, stepBadLine].length
    ∧ rep0.overall_valid =
        rep0.validation_results.all (fun r => r.is_valid) := by
  have h : validate_construction_sequence none [stepAddP, stepBadLine] spaceA =
      Except.ok rep0 := by rfl
  have hs := c7_validate_sequence_spec none [stepAddP, stepBadLine] spaceA rep0 h
  exact ⟨h, hs.1, hs.2.2.2.2.2⟩

/-- C1, counterexample: in fallback mode a one-step sequence (a single
add-point step) executes fully successfully, yet the final space's history
length equals the initial history length instead of the initial length plus
1 — neither the executor nor the fallback operations ever append to the
history. -/
theorem c1_counterexample :
    (execute_construction_sequence none (fun _ => "P1") [stepAddP]
        emptySpace).execution_results.all (fun r => r.success) = true
    ∧ (execute_construction_sequence none (fun _ => "P1") [stepAddP]
        emptySpace).final_construction_space.history.length =
        emptySpace.history.length
    ∧ ¬((execute_construction_sequence none (fun _ => "P1") [stepAddP]
        emptySpace).final_construction_space.history.length =
        emptySpace.history.length + 1) := by
  decide

/-- C1, amended: in fallback mode, when every step of the sequence executes
successfully (with fresh, pairwise distinct generated identifiers), the
executor returns one success entry per step in order; the final space's
point/line/circle counts equal the initial counts plus the number of steps
creating each kind of object; each creating step's created identifier is
recorded, in execution order, in that step's execution result; the report
is marked an overall success; but the step history is returned unchanged
(history recording is not implemented by the in-process fallback). -/
theorem c1_execute_sequence_fallback_effects (fresh : Nat → String)
    (steps : List ConstructionStep) (s0 : ConstructionSpace)
    (hfr : ∀ j, j < steps.length →
      dhas s0.points (fresh j) = false ∧ dhas s0.lines (fresh j) = false ∧
        dhas s0.circles (fresh j) = false)
    (hinj : ∀ j, j < steps.length → ∀ k, k < steps.length →
      fresh j = fresh k → j = k)
    (hsucc : (execute_construction_sequence none fresh steps
        s0).execution_results.all (fun r => r.success) = true) :
    (execute_construction_sequence none fresh steps
        s0).execution_results.length = steps.length
    ∧ (execute_construction_sequence none fresh steps
        s0).final_construction_space.history = s0.history
    ∧ (execute_construction_sequence none fresh steps
        s0).final_construction_space.points.length =
        s0.points.length + steps.countP (fun st => st.step_type == "add_point")
    ∧ (execute_construction_sequence none fresh steps
        s0).final_construction_space.lines.length =
        s0.lines.length +
          steps.countP (fun st => st.step_type == "construct_line")
    ∧ (execute_construction_sequence none fresh steps
        s0).final_construction_space.circles.length =
        s0.circles.length +
          steps.countP (fun st => st.step_type == "construct_circle")
    ∧ (execute_construction_sequence none fresh steps s0).overall_success = true
    ∧ (∀ k (hk : k < (execute_construction_sequence none fresh steps
            s0).execution_results.length) (hs : k < steps.length),
        ((execute_construction_sequence none fresh steps
            s0).execution_results.get ⟨k, hk⟩).step_number = k + 1
        ∧ ((execute_construction_sequence none fresh steps
            s0).execution_results.get ⟨k, hk⟩).success = true
        ∧ ((execute_construction_sequence none fresh steps
            s0).execution_results.get ⟨k, hk⟩).result.bind
            StepResult.createdId =
          (if (steps.get ⟨k, hs⟩).step_type == "add_point"
              || (steps.get ⟨k, hs⟩).step_type == "construct_line"
              || (steps.get ⟨k, hs⟩).step_type == "construct_circle"
            then some (fresh k) else none)) := by
  have hfr0 : ∀ j, j < 0 + steps.length → 0 ≤ j →
      dhas s0.points (fresh j) = false ∧ dhas s0.lines (fresh j) = false ∧
        dhas s0.circles (fresh j) = false := by
    intro j hj _
    exact hfr j (by simpa using hj)
  have hinj0 : ∀ j, j < 0 + steps.length → ∀ k, k < 0 + steps.length →
      fresh j = fresh k → j = k := by
    intro j hj k hk hh
    exact hinj j (by simpa using hj) k (by simpa using hk) hh
  have hsucc0 : (exec_go none fresh steps s0 0).1.all
      (fun r => r.success) = true := hsucc
  obtain ⟨L1, L2, L3, L4, L5, L6⟩ :=
    exec_go_fallback_spec fresh steps s0 0 hfr0 hinj0 hsucc0
  have hfilter : (exec_go none fresh steps s0 0).1.filter
      (fun r => r.success) = (exec_go none fresh steps s0 0).1 := by
    rw [List.filter_eq_self]
    intro a ha
    exact List.all_eq_true.mp hsucc0 a ha
  refine ⟨L1, L2, L3, L4, L5, ?_, ?_⟩
  · show (((exec_go none fresh steps s0 0).1.filter
        (fun r => r.success)).length == steps.length) = true
    rw [hfilter, L1]
    simp
  · intro k hk hs
    obtain ⟨e1, e2, e3⟩ := L6 k hk hs
    refine ⟨by simpa using e1, e2, ?_⟩
    rw [Nat.zero_add] at e3
    exact e3

theorem c1_witness :
    (execute_construction_sequence none (fun _ => "P1") [stepAddP]
        spaceA).final_construction_space.history = spaceA.history
    ∧ (execute_construction_sequence none (fun _ => "P1") [stepAddP]
        spaceA).final_construction_space.points.length =
        spaceA.points.length + 1 := by
  have h := c1_execute_sequence_fallback_effects (fun _ => "P1") [stepAddP]
    spaceA (by decide) (by decide) (by decide)
  have hc : ([stepAddP].countP (fun st => st.step_type == "add_point")) = 1 := by
    decide
  exact ⟨h.2.1, by rw [h.2.2.1, hc]⟩

end Nerv
